import Mathlib

/-!
Shallow embedding of the core of `pdf2pdfocr.py` (an OCR "sandwich PDF"
pipeline) together with theorems settling the frozen claims about it.

Geometry is modelled over `ℚ`: every arithmetic expression of the source
(`pixel / dpi * 72`, page areas, scale factors) is a ratio of machine
floats applied to integer pixel data, and the claims are about the exact
algebraic form of those expressions.
-/

/-! ## hOCR → PDF synthesizer (`HocrTransform`) -/

/-- A pixel-space bounding box `bbox x1 y1 x2 y2` as parsed from an hOCR
`title` attribute (`HocrTransform.element_coordinates`). -/
structure PxRect where
  x1 : Int
  y1 : Int
  x2 : Int
  y2 : Int
  deriving DecidableEq

/-- A point-space rectangle (`HocrTransform.pt_from_pixel` output). -/
structure PtRect where
  x1 : ℚ
  y1 : ℚ
  x2 : ℚ
  y2 : ℚ
  deriving DecidableEq

/-- `reportlab.lib.units.inch`: one inch in PDF points. -/
def inch : ℚ := 72

/-- `HocrTransform.pt_from_pixel`: each coordinate is `c / dpi * inch`. -/
def pt_from_pixel (dpi : ℚ) (r : PxRect) : PtRect :=
  { x1 := (r.x1 : ℚ) / dpi * inch
  , y1 := (r.y1 : ℚ) / dpi * inch
  , x2 := (r.x2 : ℚ) / dpi * inch
  , y2 := (r.y2 : ℚ) / dpi * inch }

/-- One word-or-line hOCR span (class `ocrx_word`, or `ocr_line` when no
word spans exist): its pixel bbox and its element text. -/
structure HocrSpan where
  bbox : PxRect
  text : String
  deriving DecidableEq

/-- Python `str.rstrip()` applied to the element text. -/
def rstrip (s : String) : String :=
  String.mk ((s.data.reverse.dropWhile Char.isWhitespace).reverse)

/-- Character-level body of `HocrTransform.replace_unsupported_chars`:
the ligature characters are substituted by their ASCII expansions. -/
def replaceLigs : List Char → List Char
  | [] => []
  | c :: cs =>
    if c = 'ﬂ' then 'f' :: 'l' :: replaceLigs cs
    else if c = 'ﬁ' then 'f' :: 'i' :: replaceLigs cs
    else c :: replaceLigs cs

/-- `HocrTransform.replace_unsupported_chars`: `s.replace("ﬂ","fl")`
followed by `s.replace("ﬁ","fi")` (both patterns are single chars). -/
def replace_unsupported_chars (s : String) : String :=
  String.mk (replaceLigs s.data)

/-- The text actually drawn for a span in `HocrTransform.to_pdf`:
`replace_unsupported_chars(elemtxt.rstrip())`. -/
def cleanText (s : String) : String :=
  replace_unsupported_chars (rstrip s)

/-- One `pdf.drawText` operation emitted by `HocrTransform.to_pdf`.
`horizScalePercent` is the argument of `text.setHorizScale`, which is in
percent units (`100` means no scaling). -/
structure TextOp where
  text : String
  originX : ℚ
  originY : ℚ
  fontsize : ℚ
  horizScalePercent : ℚ
  renderMode : Nat
  deriving DecidableEq

/-- A synthesized single PDF page: the reportlab canvas page size plus the
text operations drawn on it. -/
structure PdfPage where
  width : ℚ
  height : ℚ
  textOps : List TextOp
  deriving DecidableEq

/-- The per-span body of the text loop of `HocrTransform.to_pdf`: skip the
span when its cleaned text is empty, otherwise emit the text operation
(bottom-left origin, bbox-height font size, width-stretching horizontal
scale, render mode 3 when invisible). -/
def spanOp (sw : String → ℚ → ℚ) (dpi pageHeight : ℚ) (invisible : Bool)
    (sp : HocrSpan) : Option TextOp :=
  if (cleanText sp.text).length = 0 then none
  else
    some { text := cleanText sp.text
         , originX := (pt_from_pixel dpi sp.bbox).x1
         , originY := pageHeight - (pt_from_pixel dpi sp.bbox).y2
         , fontsize := (pt_from_pixel dpi sp.bbox).y2 - (pt_from_pixel dpi sp.bbox).y1
         , horizScalePercent :=
             100 * ((pt_from_pixel dpi sp.bbox).x2 - (pt_from_pixel dpi sp.bbox).x1)
               / sw (cleanText sp.text)
                   ((pt_from_pixel dpi sp.bbox).y2 - (pt_from_pixel dpi sp.bbox).y1)
         , renderMode := if invisible then 3 else 0 }

/-- `HocrTransform.to_pdf` restricted to its text layer (the canvas is
created at the page size computed by `__init__`; bounding-box drawing is
off in the pipeline).  `sw` is reportlab's `pdf.stringWidth` for the
fixed Helvetica font: the natural width of a string at a font size. -/
def to_pdf (sw : String → ℚ → ℚ) (dpi width height : ℚ)
    (spans : List HocrSpan) (invisible : Bool) : PdfPage :=
  { width := width
  , height := height
  , textOps := spans.filterMap (spanOp sw dpi height invisible) }

/-- `HocrTransform.__init__`: page width/height in points from the first
`ocr_page` bbox; error when no page bbox is present. -/
def hocrInit (dpi : ℚ) (pageBoxes : List PxRect) : Except String (ℚ × ℚ) :=
  match pageBoxes with
  | [] => Except.error "hocr file is missing page dimensions"
  | b :: _ =>
    let pt := pt_from_pixel dpi b
    Except.ok (pt.x2 - pt.x1, pt.y2 - pt.y1)

/-- Full `HocrTransform` run: parse the page geometry, then synthesize the
text-layer page at exactly that size. -/
def hocrToPdf (sw : String → ℚ → ℚ) (dpi : ℚ) (pageBoxes : List PxRect)
    (spans : List HocrSpan) (invisible : Bool) : Except String PdfPage :=
  match hocrInit dpi pageBoxes with
  | Except.error e => Except.error e
  | Except.ok (w, h) => Except.ok (to_pdf sw dpi w h spans invisible)

/-! ## Sandwich merger (`Pdf2PdfOcr._merge_ocr`) -/

/-- Whether the image-bearing PDF is composited under the text layer
(`qpdf --underlay`) or the text layer is composited over the image
(`qpdf --overlay`). -/
inductive MergeChoice
  | underlayImage
  | overlayText
  deriving DecidableEq

/-- Direction selection of `_merge_ocr`: the text PDF's first-page area
strictly below the image PDF's first-page area picks the underlay form. -/
def mergeChoice (firstPageImgArea firstPageTxtArea : ℚ) : MergeChoice :=
  if firstPageTxtArea < firstPageImgArea then MergeChoice.underlayImage
  else MergeChoice.overlayText

/-- First page area as computed in `_merge_ocr`:
`mediaBox.getWidth() * mediaBox.getHeight()`. -/
def firstPageArea (w h : ℚ) : ℚ := w * h

/-- The qpdf argument list built by `_merge_ocr` (without the leading
qpdf path), for each direction. -/
def qpdfMergeArgs (imgArea txtArea : ℚ)
    (imagePdf textPdf resultPdf : String) : List String :=
  match mergeChoice imgArea txtArea with
  | MergeChoice.underlayImage =>
      ["--underlay", imagePdf, "--", textPdf, resultPdf]
  | MergeChoice.overlayText =>
      ["--overlay", textPdf, "--", imagePdf, resultPdf]

/-! ## Blank-page classifier and blank-slot synthesis -/

/-- A rasterized page image: its pixel data (colors as abstract codes)
and its pixel dimensions, plus the index carried by its file name. -/
structure PageImage where
  pageIndex : Nat
  pixels : List Nat
  width : Nat
  height : Nat
  deriving DecidableEq

/-- `PIL.Image.getcolors(maxcolors)`: `none` when the image has more than
`maxcolors` distinct colors, otherwise the list of (count, color). -/
def getcolors (pixels : List Nat) (maxcolors : Nat) : Option (List (Nat × Nat)) :=
  let distinct := pixels.dedup
  if distinct.length > maxcolors then none
  else some (distinct.map (fun c => (pixels.count c, c)))

/-- The blank test of `check_blank_pages`:
`(colors is not None) and (len(colors) == 1)` with PIL's default
`maxcolors = 256`. -/
def isBlank (pixels : List Nat) : Bool :=
  match getcolors pixels 256 with
  | none => false
  | some l => decide (l.length = 1)

/-- `check_blank_pages`: the sublist of page images classified blank. -/
def blankPagesOf (imgs : List PageImage) : List PageImage :=
  imgs.filter (fun im => isBlank im.pixels)

/-- `external_ocr`'s dispatch list:
`[x for x in image_file_list if x not in self.blank_pages]`. -/
def externalOcrDispatch (imgs : List PageImage) : List PageImage :=
  imgs.filter (fun x => decide (x ∉ blankPagesOf imgs))

/-- `do_create_blank_pdf`: a text-free page whose size is the blank
image's pixel dimensions converted to points at the image resolution. -/
def do_create_blank_pdf (dims : Nat × Nat) (imageResolution : ℚ) : PdfPage :=
  { width := (dims.1 : ℚ) / imageResolution * 72
  , height := (dims.2 : ℚ) / imageResolution * 72
  , textOps := [] }

/-! ## Smart rebuild preset selection (`rebuild_and_merge`) -/

/-- An RGB pixel (the `convert('RGB')` split into three channels). -/
def pixR (p : Nat × Nat × Nat) : Nat := p.1

/-- Green channel of an RGB pixel. -/
def pixG (p : Nat × Nat × Nat) : Nat := p.2.1

/-- Blue channel of an RGB pixel. -/
def pixB (p : Nat × Nat × Nat) : Nat := p.2.2

/-- `ImageChops.difference(a, b).getextrema()[1]`: the maximum absolute
channel difference over all pixels. -/
def channelDiffMax (img : List (Nat × Nat × Nat))
    (f g : (Nat × Nat × Nat) → Nat) : Nat :=
  (img.map (fun p => max (f p) (g p) - min (f p) (g p))).foldr max 0

/-- `do_check_img_greyscale`: false as soon as the R/G or R/B difference
has a nonzero maximum, true otherwise. -/
def do_check_img_greyscale (img : List (Nat × Nat × Nat)) : Bool :=
  if channelDiffMax img pixR pixG ≠ 0 then false
  else if channelDiffMax img pixR pixB ≠ 0 then false
  else true

/-- Convert preset `fast` of `rebuild_and_merge`. -/
def preset_fast : String := "-threshold 60% -compress Group4"

/-- Convert preset `best` of `rebuild_and_merge`. -/
def preset_best : String :=
  "-colors 2 -colorspace gray -normalize -threshold 60% -compress Group4"

/-- Convert preset `grayscale` of `rebuild_and_merge`. -/
def preset_grayscale : String :=
  "-threshold 85% -morphology Dilate Diamond -compress Group4"

/-- Convert preset `jpeg` of `rebuild_and_merge`. -/
def preset_jpeg : String :=
  "-strip -interlace Plane -gaussian-blur 0.05 -quality 50% -compress JPEG"

/-- Convert preset `jpeg2000` of `rebuild_and_merge`. -/
def preset_jpeg2000 : String := "-quality 32% -compress JPEG2000"

/-- The smart-mode branch of `rebuild_and_merge`: `best` when every page
passed the greyscale check, `jpeg` otherwise. -/
def smartChoice (greyResults : List Bool) : String :=
  if greyResults.all (fun x => x) then "best" else "jpeg"

/-- Preset selection of `rebuild_and_merge`: resolve `smart` first from
the per-page greyscale checks, then map preset names to convert operator
strings (the empty default maps to `best`). -/
def selectConvertParams (userConvertParams : String)
    (imgs : List (List (Nat × Nat × Nat))) : String :=
  let p :=
    if userConvertParams = "smart" then
      smartChoice (imgs.map do_check_img_greyscale)
    else userConvertParams
  let cp :=
    if p = "fast" then preset_fast
    else if p = "best" then preset_best
    else if p = "grayscale" then preset_grayscale
    else if p = "jpeg" then preset_jpeg
    else if p = "jpeg2000" then preset_jpeg2000
    else p
  if cp = "" then preset_best else cp

/-! ## Orientation detection and the rotation compositor -/

/-- `autorotate_info`: one tesseract `psm 0` run (hence one `.osd` record)
per non-blank page; `angleOf` is the rotation each run detects. -/
def autorotateInfoOsd (imgs : List PageImage) (angleOf : PageImage → Int) :
    List Int :=
  (imgs.filter (fun p => !(isBlank p.pixels))).map angleOf

/-- `autorotate_final_output`: when autorotation is on but the number of
OSD records differs from the page count, rotation is skipped entirely;
otherwise each page is rotated clockwise by its record's angle
(`rotateClockwise` adds to the page's rotation). -/
def autorotateFinalOutput (useAutorotate : Bool) (numPages : Nat)
    (osdAngles : List Int) (pageRotations : List Int) : List Int :=
  if useAutorotate && decide (osdAngles.length ≠ numPages) then pageRotations
  else if useAutorotate then
    (pageRotations.zip osdAngles).map (fun p => p.1 + p.2)
  else pageRotations

/-- The blank first page of the 2-page orientation scenario: a single
color everywhere. -/
def scenarioBlankPage : PageImage :=
  { pageIndex := 1, pixels := [7, 7, 7, 7], width := 100, height := 200 }

/-- The text-bearing second page of the 2-page orientation scenario: more
than one distinct color. -/
def scenarioTextPage : PageImage :=
  { pageIndex := 2, pixels := [7, 0, 7, 0], width := 100, height := 200 }

/-- The 2-page orientation scenario (page 1 blank, page 2 text). -/
def scenarioPages : List PageImage := [scenarioBlankPage, scenarioTextPage]

/-- Orientation detection of the scenario: page 2 is detected rotated 90
degrees (page 1 is never submitted, being blank). -/
def scenarioAngleOf (p : PageImage) : Int := if p.pageIndex = 2 then 90 else 0

/-- Final page rotations of the scenario run with autorotation enabled:
the OSD records produced for the non-blank pages are applied (or skipped)
by `autorotate_final_output` on the 2-page merged output. -/
def scenarioFinalRotations : List Int :=
  autorotateFinalOutput true scenarioPages.length
    (autorotateInfoOsd scenarioPages scenarioAngleOf)
    (List.replicate scenarioPages.length 0)

/-! ## Final assembly and the repair fallback (`build_final_output`) -/

/-- The externally observable steps of `build_final_output`. -/
inductive BuildAction
  | mergeOcrFinal
  | repairRoundTrip
  | mergeOcrRepair
  | copyInputToOutput
  | rebuildAndMergeRun
  | cleanupRun
  | fatalRaise
  deriving DecidableEq

/-- Outcomes of the external merge steps (whether each merge invocation
leaves the `-OUTPUT.pdf` file on disk). -/
structure MergeEnv where
  primaryMergeCreatesOutput : Bool
  repairMergeCreatesOutput : Bool
  rebuildCreatesOutput : Bool

/-- `build_final_output`: on the direct path a failed primary merge is
followed by exactly one PostScript round-trip repair plus one merge retry;
a still-missing output file ends in cleanup and a fatal exception.
Returns the action trace and whether the output file exists at the end. -/
def build_final_output (rebuildFromImg ocrIgnored : Bool) (env : MergeEnv) :
    List BuildAction × Bool :=
  if !rebuildFromImg then
    if !ocrIgnored then
      if env.primaryMergeCreatesOutput then
        ([BuildAction.mergeOcrFinal], true)
      else
        if env.repairMergeCreatesOutput then
          ([BuildAction.mergeOcrFinal, BuildAction.repairRoundTrip,
            BuildAction.mergeOcrRepair], true)
        else
          ([BuildAction.mergeOcrFinal, BuildAction.repairRoundTrip,
            BuildAction.mergeOcrRepair, BuildAction.cleanupRun,
            BuildAction.fatalRaise], false)
    else ([BuildAction.copyInputToOutput], true)
  else
    if env.rebuildCreatesOutput then ([BuildAction.rebuildAndMergeRun], true)
    else ([BuildAction.rebuildAndMergeRun, BuildAction.cleanupRun,
           BuildAction.fatalRaise], false)

/-! ## Cuneiform OCR fallback (`do_ocr_cuneiform`) -/

/-- What one `do_ocr_cuneiform` call does: the languages attempted (in
order), whether an hOCR file was obtained, and whether the page came from
the hard-coded fallback hOCR. -/
structure CuneiformOutcome where
  attempts : List String
  hocrFound : Bool
  pageFromFallback : Bool
  deriving DecidableEq

/-- Python `str.lower()`, character-wise. -/
def lowerStr (s : String) : String := String.mk (s.data.map Char.toLower)

/-- `do_ocr_cuneiform`: run cuneiform with the lowercased page language;
when the hOCR file is missing and that language is not already `eng`,
retry once with `eng`; when the file is still missing, fall back to the
hard-coded page hOCR.  `ocrMakesHocr lang` tells whether a cuneiform run
with language `lang` leaves the hOCR file on disk. -/
def do_ocr_cuneiform (cuneiLang : String) (ocrMakesHocr : String → Bool) :
    CuneiformOutcome :=
  { attempts :=
      if !(ocrMakesHocr (lowerStr cuneiLang)) && lowerStr cuneiLang ≠ "eng"
      then [lowerStr cuneiLang, "eng"] else [lowerStr cuneiLang]
  , hocrFound :=
      ocrMakesHocr (lowerStr cuneiLang) ||
        ((!(ocrMakesHocr (lowerStr cuneiLang)) && lowerStr cuneiLang ≠ "eng")
          && ocrMakesHocr "eng")
  , pageFromFallback :=
      !(ocrMakesHocr (lowerStr cuneiLang) ||
        ((!(ocrMakesHocr (lowerStr cuneiLang)) && lowerStr cuneiLang ≠ "eng")
          && ocrMakesHocr "eng")) }

/-- The hard-coded fallback page bbox of `do_ocr_cuneiform`:
`bbox 0 0 1700 2400` (pixels, used at the fixed 300 dpi). -/
def fallbackPageBox : PxRect := { x1 := 0, y1 := 0, x2 := 1700, y2 := 2400 }

/-! ## Pipeline ordering and the rebuild/ignore-text contradiction -/

/-- The stages of `Pdf2PdfOcr.ocr` in call order. -/
inductive Stage
  | checkSizeStage
  | detectTypeStage
  | validatePdfStage
  | checkRebuildStage
  | defineOutputsStage
  | convertToImagesStage
  | checkBlankStage
  | autorotateInfoStage
  | deskewStage
  | externalOcrStage
  | joinOcrStage
  | buildOutputStage
  | autorotateOutStage
  | editProducerStage
  deriving DecidableEq

/-- The run configuration observed by the early checks of `ocr`. -/
structure RunConfig where
  sizeTooSmall : Bool
  isPdf : Bool
  pdfCorrupt : Bool
  tooManyPages : Bool
  checkTextMode : Bool
  hasText : Bool
  checkProtectionMode : Bool
  encrypted : Bool
  deskewMode : Bool
  forceRebuild : Bool
  ignoreText : Bool

/-- `check_rebuild_pdf`'s rebuild condition: encrypted input, non-PDF
input, deskew requested, or rebuild forced. -/
def rebuildFromImagesFlag (c : RunConfig) : Bool :=
  c.encrypted || !c.isPdf || c.deskewMode || c.forceRebuild

/-- The work stages executed after all early checks pass. -/
def workStages (c : RunConfig) : List Stage :=
  [Stage.defineOutputsStage, Stage.convertToImagesStage,
   Stage.checkBlankStage, Stage.autorotateInfoStage] ++
  (if c.deskewMode then [Stage.deskewStage] else []) ++
  [Stage.externalOcrStage, Stage.joinOcrStage, Stage.buildOutputStage,
   Stage.autorotateOutStage, Stage.editProducerStage]

/-- The tail of `ocr` from `check_rebuild_pdf` on: the contradiction of a
forced rebuild together with ignore-existing-text raises fatally there,
before any of the work stages. -/
def ocrRunTail (c : RunConfig) (pre : List Stage) :
    List Stage × Option String :=
  let s := pre ++ [Stage.checkRebuildStage]
  if rebuildFromImagesFlag c && c.ignoreText then
    (s, some "Rebuild from images and ignore existing text won't work together")
  else (s ++ workStages c, none)

/-- `Pdf2PdfOcr.ocr` down to its fatal early checks, in source order:
size guard, file-type detection, PDF validation (corruption, page guard,
text guard, encryption guard), then `check_rebuild_pdf`, then the work
stages.  Returns the executed stages and the fatal error, if any. -/
def ocrRun (c : RunConfig) : List Stage × Option String :=
  let s1 := [Stage.checkSizeStage]
  if c.sizeTooSmall then (s1, some "input file smaller than min-kbytes")
  else
    let s2 := s1 ++ [Stage.detectTypeStage]
    if c.isPdf then
      let s3 := s2 ++ [Stage.validatePdfStage]
      if c.pdfCorrupt then (s3, some "Corrupted PDF file detected")
      else if c.tooManyPages then (s3, some "too many pages")
      else if c.checkTextMode && c.hasText then (s3, some "already has text")
      else if c.checkProtectionMode && c.encrypted then (s3, some "is encrypted PDF")
      else ocrRunTail c s3
    else ocrRunTail c s2

/-! ## Page range partitioner (`calculate_ranges`) -/

/-- `math.ceil(a / b)` on natural inputs with `b > 0`. -/
def ceil_div (a b : Nat) : Nat := (a + b - 1) / b

/-- The parallel range size of `calculate_ranges`:
`ceil(number_of_pages / cpu_to_use)`. -/
def rangeSizeOf (n cpuToUse : Nat) : Nat := ceil_div n cpuToUse

/-- The number of ranges of `calculate_ranges`:
`ceil(number_of_pages / range_size)`. -/
def numRangesOf (n cpuToUse : Nat) : Nat := ceil_div n (rangeSizeOf n cpuToUse)

/-- The `i`-th range built by `calculate_ranges`: start `s*i + 1`, end
`s*i + s` clamped to the page count. -/
def mkRange (s n i : Nat) : Nat × Nat :=
  (s * i + 1, if s * i + s > n then n else s * i + s)

/-- The range list built by `calculate_ranges`. -/
def rangesList (n cpuToUse : Nat) : List (Nat × Nat) :=
  (List.range (numRangesOf n cpuToUse)).map (mkRange (rangeSizeOf n cpuToUse) n)

/-- The defensive coverage count of `calculate_ranges`:
`sum of (range_end - range_start) + 1`. -/
def checkPages (l : List (Nat × Nat)) : Nat :=
  (l.map (fun r => r.2 - r.1 + 1)).sum

/-- `calculate_ranges`: no partition when the page count is unknown or
below 20; otherwise the range list, after the defensive check that the
ranges cover exactly the page count (`ArithmeticError` on mismatch). -/
def calculate_ranges (numPages : Option Nat) (cpuToUse : Nat) :
    Except String (Option (List (Nat × Nat))) :=
  match numPages with
  | none => Except.ok none
  | some n =>
    if n < 20 then Except.ok none
    else if checkPages (rangesList n cpuToUse) ≠ n then
      Except.error "Please check calculate_ranges function, something is wrong..."
    else Except.ok (some (rangesList n cpuToUse))

/-! ## Lemmas about the partitioner arithmetic -/

/-- `ceil_div` is an upper bound: `n ≤ s * ceil(n/s)`. -/
theorem ceil_div_mul_ge (n s : Nat) (hs : 1 ≤ s) : n ≤ s * ceil_div n s := by
  have h := Nat.div_add_mod (n + s - 1) s
  have hr : (n + s - 1) % s < s := Nat.mod_lt _ hs
  unfold ceil_div
  generalize s * ((n + s - 1) / s) = t at *
  omega

/-- `ceil_div` is tight: `s * (ceil(n/s) - 1) < n` for positive `n`. -/
theorem ceil_div_pred_mul_lt (n s : Nat) (hs : 1 ≤ s) (hn : 1 ≤ n) :
    s * (ceil_div n s - 1) < n := by
  have h := Nat.div_add_mod (n + s - 1) s
  have hr : (n + s - 1) % s < s := Nat.mod_lt _ hs
  unfold ceil_div
  rcases Nat.eq_zero_or_pos ((n + s - 1) / s) with h0 | hpos
  · rw [h0]
    simpa using hn
  · obtain ⟨q, hq⟩ : ∃ q, (n + s - 1) / s = q + 1 :=
      ⟨_, (Nat.succ_pred_eq_of_pos hpos).symm⟩
    rw [hq] at h ⊢
    rw [Nat.mul_succ] at h
    simp only [Nat.add_sub_cancel]
    generalize s * q = t at *
    omega

/-- Telescoping sum of successive differences of a step-monotone `f`. -/
theorem foldsum_telescope (f : Nat → Nat) (hmono : ∀ i, f i ≤ f (i + 1)) :
    ∀ k, ((List.range k).map (fun i => f (i + 1) - f i)).sum = f k - f 0 := by
  have hm : Monotone f := monotone_nat_of_le_succ hmono
  intro k
  induction k with
  | zero => simp
  | succ k ih =>
    rw [List.range_succ, List.map_append, List.sum_append]
    simp only [List.map_cons, List.map_nil, List.sum_cons, List.sum_nil,
      add_zero, ih]
    have h1 : f 0 ≤ f k := hm (Nat.zero_le k)
    have h2 : f k ≤ f (k + 1) := hmono k
    omega

/-- The partitioner's range size is positive for a positive page count. -/
theorem rangeSizeOf_pos (n w : Nat) (hw : 1 ≤ w) (hn : 1 ≤ n) :
    1 ≤ rangeSizeOf n w := by
  unfold rangeSizeOf ceil_div
  rw [Nat.le_div_iff_mul_le hw]
  omega

/-- Every range index of the partitioner starts strictly inside the
document: `s * i < n` for `i < numRangesOf n w`. -/
theorem rangeSizeOf_mul_lt (n w i : Nat) (hw : 1 ≤ w) (hn : 1 ≤ n)
    (hi : i < numRangesOf n w) : rangeSizeOf n w * i < n := by
  have hs1 := rangeSizeOf_pos n w hw hn
  have h1 : rangeSizeOf n w * i ≤ rangeSizeOf n w * (numRangesOf n w - 1) :=
    Nat.mul_le_mul_left _ (by omega)
  have h2 : rangeSizeOf n w * (numRangesOf n w - 1) < n :=
    ceil_div_pred_mul_lt n (rangeSizeOf n w) hs1 hn
  omega

/-- The defensive coverage count of `calculate_ranges` always equals the
page count: the computed ranges tile `1..n` exactly. -/
theorem checkPages_rangesList (n w : Nat) (hw : 1 ≤ w) (hn : 1 ≤ n) :
    checkPages (rangesList n w) = n := by
  have hs1 := rangeSizeOf_pos n w hw hn
  have hns : n ≤ rangeSizeOf n w * numRangesOf n w :=
    ceil_div_mul_ge n (rangeSizeOf n w) hs1
  unfold checkPages rangesList
  rw [List.map_map]
  rw [List.map_congr_left (g := fun i =>
      min (rangeSizeOf n w * (i + 1)) n - min (rangeSizeOf n w * i) n) ?_]
  · rw [foldsum_telescope (fun i => min (rangeSizeOf n w * i) n) ?_ (numRangesOf n w)]
    · simp only [Nat.mul_zero, Nat.zero_min]
      generalize rangeSizeOf n w * numRangesOf n w = t at *
      omega
    · intro i
      have : rangeSizeOf n w * i ≤ rangeSizeOf n w * (i + 1) :=
        Nat.mul_le_mul_left _ (by omega)
      show min (rangeSizeOf n w * i) n ≤ min (rangeSizeOf n w * (i + 1)) n
      omega
  · intro i hi
    rw [List.mem_range] at hi
    have h1 := rangeSizeOf_mul_lt n w i hw hn hi
    simp only [Function.comp, mkRange]
    rw [Nat.mul_succ]
    generalize rangeSizeOf n w * i = m at *
    split
    · omega
    · omega

/-- Elements of the partitioner's range list, in closed form. -/
theorem rangesList_get (n w i : Nat) (h : i < (rangesList n w).length) :
    (rangesList n w).get ⟨i, h⟩ = mkRange (rangeSizeOf n w) n i := by
  simp [rangesList]

/-- Length of the partitioner's range list. -/
theorem rangesList_length (n w : Nat) :
    (rangesList n w).length = numRangesOf n w := by
  simp [rangesList]

/-- C4: for every known page count `n` and worker count `w ≥ 1`,
`calculate_ranges` returns no partition when `n < 20`; otherwise it
returns the range list, whose `i`-th range starts at `ceil(n/w)*i + 1`
(hence page 1 for the first), consecutive ranges are contiguous, every
non-last range has length `ceil(n/w)`, every range has length at most
`ceil(n/w)`, and the verified sum of the range lengths equals `n` (so the
mismatch branch does not raise). -/
theorem calculate_ranges_partition_spec (n w : Nat) (hw : 1 ≤ w) :
    (n < 20 → calculate_ranges (some n) w = Except.ok none) ∧
    (20 ≤ n →
      calculate_ranges (some n) w = Except.ok (some (rangesList n w)) ∧
      (∀ i, (h : i < (rangesList n w).length) →
        ((rangesList n w).get ⟨i, h⟩).1 = ceil_div n w * i + 1) ∧
      (∀ i, (h : i + 1 < (rangesList n w).length) →
        ((rangesList n w).get ⟨i + 1, h⟩).1 =
          ((rangesList n w).get ⟨i, by omega⟩).2 + 1) ∧
      (∀ i, (h : i + 1 < (rangesList n w).length) →
        ((rangesList n w).get ⟨i, by omega⟩).2 -
          ((rangesList n w).get ⟨i, by omega⟩).1 + 1 = ceil_div n w) ∧
      (∀ i, (h : i < (rangesList n w).length) →
        ((rangesList n w).get ⟨i, h⟩).2 -
          ((rangesList n w).get ⟨i, h⟩).1 + 1 ≤ ceil_div n w) ∧
      checkPages (rangesList n w) = n) := by
  constructor
  · intro h
    simp only [calculate_ranges]
    rw [if_pos h]
  · intro h
    have hn1 : 1 ≤ n := by omega
    have hs1 := rangeSizeOf_pos n w hw hn1
    have hcheck := checkPages_rangesList n w hw hn1
    have hlen := rangesList_length n w
    refine ⟨?_, ?_, ?_, ?_, ?_, hcheck⟩
    · simp only [calculate_ranges]
      rw [if_neg (by omega), if_neg (by omega)]
    · intro i hi
      rw [rangesList_get n w i hi]
      rfl
    · intro i hi
      rw [rangesList_get n w (i + 1) hi, rangesList_get n w i (by omega)]
      have hlt : rangeSizeOf n w * (i + 1) < n :=
        rangeSizeOf_mul_lt n w (i + 1) hw hn1 (by omega)
      simp only [mkRange]
      rw [Nat.mul_succ] at hlt ⊢
      generalize rangeSizeOf n w * i = m at *
      rw [if_neg (by omega)]
    · intro i hi
      rw [rangesList_get n w i (by omega)]
      have hlt : rangeSizeOf n w * (i + 1) < n :=
        rangeSizeOf_mul_lt n w (i + 1) hw hn1 (by omega)
      show (mkRange (rangeSizeOf n w) n i).2 -
        (mkRange (rangeSizeOf n w) n i).1 + 1 = rangeSizeOf n w
      simp only [mkRange]
      rw [Nat.mul_succ] at hlt
      generalize rangeSizeOf n w * i = m at *
      rw [if_neg (by omega)]
      omega
    · intro i hi
      rw [rangesList_get n w i hi]
      have hlt : rangeSizeOf n w * i < n :=
        rangeSizeOf_mul_lt n w i hw hn1 (by omega)
      show (mkRange (rangeSizeOf n w) n i).2 -
        (mkRange (rangeSizeOf n w) n i).1 + 1 ≤ rangeSizeOf n w
      simp only [mkRange]
      generalize rangeSizeOf n w * i = m at *
      split
      · omega
      · omega

/-- C4 witness: the partitioner at 100 pages and 3 workers. -/
theorem calculate_ranges_partition_spec_witness :
    1 ≤ 3 ∧ 20 ≤ 100 ∧
    calculate_ranges (some 100) 3 = Except.ok (some (rangesList 100 3)) ∧
    rangesList 100 3 = [(1, 34), (35, 68), (69, 100)] ∧
    checkPages (rangesList 100 3) = 100 := by
  refine ⟨by decide, by decide, ?_, by decide, ?_⟩
  · exact ((calculate_ranges_partition_spec 100 3 (by decide)).2 (by decide)).1
  · exact ((calculate_ranges_partition_spec 100 3
      (by decide)).2 (by decide)).2.2.2.2.2

/-- C10: for every page count and worker count `w ≥ 1`, `calculate_ranges`
never takes its `ArithmeticError` branch: it always returns a result. -/
theorem calculate_ranges_check_unreachable (n w : Nat) (hw : 1 ≤ w) :
    ∃ r, calculate_ranges (some n) w = Except.ok r := by
  simp only [calculate_ranges]
  by_cases h : n < 20
  · rw [if_pos h]
    exact ⟨none, rfl⟩
  · have hcheck := checkPages_rangesList n w hw (by omega)
    rw [if_neg h, if_neg (by omega)]
    exact ⟨some (rangesList n w), rfl⟩

/-- C10 witness: no error at 25 pages and 4 workers. -/
theorem calculate_ranges_check_unreachable_witness :
    1 ≤ 4 ∧ ∃ r, calculate_ranges (some 25) 4 = Except.ok r :=
  ⟨by decide, calculate_ranges_check_unreachable 25 4 (by decide)⟩

/-! ## Claims about the hOCR synthesizer -/

/-- The value `spanOp` takes on a span whose cleaned text is nonempty. -/
theorem spanOp_of_ne (sw : String → ℚ → ℚ) (dpi pageHeight : ℚ)
    (invisible : Bool) (sp : HocrSpan)
    (hne : (cleanText sp.text).length ≠ 0) :
    spanOp sw dpi pageHeight invisible sp =
      some { text := cleanText sp.text
           , originX := (pt_from_pixel dpi sp.bbox).x1
           , originY := pageHeight - (pt_from_pixel dpi sp.bbox).y2
           , fontsize := (pt_from_pixel dpi sp.bbox).y2 - (pt_from_pixel dpi sp.bbox).y1
           , horizScalePercent :=
               100 * ((pt_from_pixel dpi sp.bbox).x2 - (pt_from_pixel dpi sp.bbox).x1)
                 / sw (cleanText sp.text)
                     ((pt_from_pixel dpi sp.bbox).y2 - (pt_from_pixel dpi sp.bbox).y1)
           , renderMode := if invisible then 3 else 0 } := by
  unfold spanOp
  rw [if_neg hne]

/-- C1: for an hOCR input whose first page-level bbox is
`(x1,y1,x2,y2)` pixels at DPI `d`, the synthesized PDF page has width
`(x2-x1)/d*72` and height `(y2-y1)/d*72` points, and every word-or-line
span with non-empty (cleaned) text yields a text operation at the span's
bottom-left corner (page height minus the span's bottom y), with font
size the span's bbox height in points, an effective horizontal scale
(`setHorizScale` argument divided by its percent base 100) of
bbox width over `stringWidth(text, font, fontsize)`, and the invisible
text render mode 3. -/
theorem hocr_synth_geometry
    (sw : String → ℚ → ℚ) (d : ℚ) (b : PxRect) (rest : List PxRect)
    (spans : List HocrSpan) (sp : HocrSpan)
    (hmem : sp ∈ spans) (hne : (cleanText sp.text).length ≠ 0) :
    ∃ page : PdfPage,
      hocrToPdf sw d (b :: rest) spans true = Except.ok page
      ∧ page.width = ((b.x2 : ℚ) - (b.x1 : ℚ)) / d * 72
      ∧ page.height = ((b.y2 : ℚ) - (b.y1 : ℚ)) / d * 72
      ∧ ∃ op ∈ page.textOps,
          op.text = cleanText sp.text
          ∧ op.originX = (sp.bbox.x1 : ℚ) / d * 72
          ∧ op.originY = page.height - (sp.bbox.y2 : ℚ) / d * 72
          ∧ op.fontsize = ((sp.bbox.y2 : ℚ) - (sp.bbox.y1 : ℚ)) / d * 72
          ∧ op.horizScalePercent / 100
              = ((((sp.bbox.x2 : ℚ) - (sp.bbox.x1 : ℚ)) / d * 72)
                  / sw op.text op.fontsize)
          ∧ op.renderMode = 3 := by
  have hop := spanOp_of_ne sw d
    ((pt_from_pixel d b).y2 - (pt_from_pixel d b).y1) true sp hne
  refine ⟨to_pdf sw d ((pt_from_pixel d b).x2 - (pt_from_pixel d b).x1)
      ((pt_from_pixel d b).y2 - (pt_from_pixel d b).y1) spans true,
    rfl, ?_, ?_, ?_⟩
  · dsimp only [to_pdf]
    simp only [pt_from_pixel, inch]
    ring
  · dsimp only [to_pdf]
    simp only [pt_from_pixel, inch]
    ring
  · refine ⟨_, List.mem_filterMap.mpr ⟨sp, hmem, hop⟩, rfl, ?_, ?_, ?_, ?_, rfl⟩
    · dsimp only
      simp only [pt_from_pixel, inch]
    · dsimp only [to_pdf]
      simp only [pt_from_pixel, inch]
      try ring
    · dsimp only
      simp only [pt_from_pixel, inch]
      try ring
    · dsimp only
      have hA : (pt_from_pixel d sp.bbox).x2 - (pt_from_pixel d sp.bbox).x1
          = ((sp.bbox.x2 : ℚ) - (sp.bbox.x1 : ℚ)) / d * 72 := by
        simp only [pt_from_pixel, inch]
        ring
      rw [hA, mul_comm (100 : ℚ), div_div,
        mul_div_mul_right _ _ (by norm_num : (100 : ℚ) ≠ 0)]

/-- C1 witness: a 1700×2400 px page at 300 dpi (408×576 pt) with one
"hi " span. -/
theorem hocr_synth_geometry_witness :
    (⟨⟨30, 60, 330, 120⟩, "hi "⟩ : HocrSpan) ∈
        [(⟨⟨30, 60, 330, 120⟩, "hi "⟩ : HocrSpan)]
    ∧ (cleanText "hi ").length ≠ 0
    ∧ ∃ page : PdfPage,
        hocrToPdf (fun _ _ => (50 : ℚ)) 300 [⟨0, 0, 1700, 2400⟩]
          [⟨⟨30, 60, 330, 120⟩, "hi "⟩] true = Except.ok page
        ∧ page.width = 408 ∧ page.height = 576 := by
  have h := hocr_synth_geometry (fun _ _ => (50 : ℚ)) 300
    ⟨0, 0, 1700, 2400⟩ [] [⟨⟨30, 60, 330, 120⟩, "hi "⟩]
    ⟨⟨30, 60, 330, 120⟩, "hi "⟩ (List.mem_singleton.mpr rfl) (by decide)
  obtain ⟨page, h1, h2, h3, -⟩ := h
  refine ⟨List.mem_singleton.mpr rfl, by decide, page, h1, ?_, ?_⟩
  · rw [h2]
    norm_num
  · rw [h3]
    norm_num

/-! ## Claim about the merge direction -/

/-- C2: the merge direction compares the first-page areas: a strictly
smaller text-layer area puts the image PDF as qpdf underlay beneath the
text; otherwise the text PDF is the qpdf overlay on top of the image. -/
theorem merge_direction_by_area (imgW imgH txtW txtH : ℚ)
    (imagePdf textPdf resultPdf : String) :
    (firstPageArea txtW txtH < firstPageArea imgW imgH →
      mergeChoice (firstPageArea imgW imgH) (firstPageArea txtW txtH)
        = MergeChoice.underlayImage
      ∧ qpdfMergeArgs (firstPageArea imgW imgH) (firstPageArea txtW txtH)
          imagePdf textPdf resultPdf
        = ["--underlay", imagePdf, "--", textPdf, resultPdf]) ∧
    (¬ firstPageArea txtW txtH < firstPageArea imgW imgH →
      mergeChoice (firstPageArea imgW imgH) (firstPageArea txtW txtH)
        = MergeChoice.overlayText
      ∧ qpdfMergeArgs (firstPageArea imgW imgH) (firstPageArea txtW txtH)
          imagePdf textPdf resultPdf
        = ["--overlay", textPdf, "--", imagePdf, resultPdf]) := by
  constructor
  · intro h
    have hc : mergeChoice (firstPageArea imgW imgH) (firstPageArea txtW txtH)
        = MergeChoice.underlayImage := by
      unfold mergeChoice
      rw [if_pos h]
    exact ⟨hc, by unfold qpdfMergeArgs; rw [hc]⟩
  · intro h
    have hc : mergeChoice (firstPageArea imgW imgH) (firstPageArea txtW txtH)
        = MergeChoice.overlayText := by
      unfold mergeChoice
      rw [if_neg h]
    exact ⟨hc, by unfold qpdfMergeArgs; rw [hc]⟩

/-- C2 witness: a 612×792 pt image page against a 500×700 pt text page
(underlay), and against a 612×792 pt text page (overlay). -/
theorem merge_direction_by_area_witness :
    (firstPageArea 500 700 < firstPageArea 612 792 ∧
      mergeChoice (firstPageArea 612 792) (firstPageArea 500 700)
        = MergeChoice.underlayImage) ∧
    (¬ firstPageArea (612 : ℚ) 792 < firstPageArea 612 792 ∧
      mergeChoice (firstPageArea 612 792) (firstPageArea 612 792)
        = MergeChoice.overlayText) := by
  have hlt : firstPageArea (500 : ℚ) 700 < firstPageArea 612 792 := by
    unfold firstPageArea
    norm_num
  have hge : ¬ firstPageArea (612 : ℚ) 792 < firstPageArea 612 792 := by
    unfold firstPageArea
    norm_num
  exact ⟨⟨hlt, ((merge_direction_by_area 612 792 500 700 "i" "t" "o").1 hlt).1⟩,
    ⟨hge, ((merge_direction_by_area 612 792 612 792 "i" "t" "o").2 hge).1⟩⟩

/-! ## Claim about the repair fallback -/

/-- C5: on the direct-merge path with OCR enabled, when the primary merge
creates no output file the repair round-trip and the single merge retry
each run exactly once, and when the retry also creates no output the run
ends with workspace cleanup followed by a fatal exception. -/
theorem repair_fallback_once (env : MergeEnv)
    (h : env.primaryMergeCreatesOutput = false) :
    (build_final_output false false env).1.count BuildAction.repairRoundTrip = 1
    ∧ (build_final_output false false env).1.count BuildAction.mergeOcrRepair = 1
    ∧ (env.repairMergeCreatesOutput = false →
        (build_final_output false false env).2 = false
        ∧ (build_final_output false false env).1.count BuildAction.cleanupRun = 1
        ∧ (build_final_output false false env).1.getLast?
            = some BuildAction.fatalRaise)
    ∧ (env.repairMergeCreatesOutput = true →
        (build_final_output false false env).2 = true) := by
  rcases env with ⟨p, r, rb⟩
  cases p
  · cases r <;> cases rb <;> decide
  · simp at h

/-- C5 witness: both merges fail; the repair runs once and the run ends
fatally. -/
theorem repair_fallback_once_witness :
    (⟨false, false, false⟩ : MergeEnv).primaryMergeCreatesOutput = false
    ∧ (build_final_output false false ⟨false, false, false⟩).1.count
        BuildAction.repairRoundTrip = 1 :=
  ⟨rfl, (repair_fallback_once ⟨false, false, false⟩ rfl).1⟩

/-! ## Claims about blank pages -/

/-- A page is classified blank exactly when its image has one distinct
color. -/
theorem isBlank_iff (pixels : List Nat) :
    isBlank pixels = true ↔ pixels.dedup.length = 1 := by
  by_cases h : pixels.dedup.length > 256
  · simp [isBlank, getcolors, h]
    omega
  · simp [isBlank, getcolors, h]

/-- C6: a page is blank iff its image reduces to exactly one distinct
color; the OCR dispatch list is exactly the non-blank pages; and each
blank page's slot is a textless page at its pixel dimensions converted to
points (`pixels / resolution * 72`). -/
theorem blank_page_classification (imgs : List PageImage) (res : ℚ) :
    (∀ pixels : List Nat, isBlank pixels = true ↔ pixels.dedup.length = 1)
    ∧ (∀ im, im ∈ externalOcrDispatch imgs ↔
        im ∈ imgs ∧ isBlank im.pixels = false)
    ∧ (∀ im ∈ blankPagesOf imgs,
        do_create_blank_pdf (im.width, im.height) res
          = { width := (im.width : ℚ) / res * 72
            , height := (im.height : ℚ) / res * 72
            , textOps := [] }) := by
  refine ⟨isBlank_iff, ?_, ?_⟩
  · intro im
    simp only [externalOcrDispatch, blankPagesOf, List.mem_filter,
      decide_eq_true_eq]
    constructor
    · rintro ⟨h1, h2⟩
      refine ⟨h1, ?_⟩
      rcases hb : isBlank im.pixels with _ | _
      · rfl
      · exact absurd ⟨h1, hb⟩ h2
    · rintro ⟨h1, h2⟩
      exact ⟨h1, fun hc => by rw [h2] at hc; exact Bool.false_ne_true hc.2⟩
  · intro im _
    rfl

/-- C6 witness: a one-color 2×3 image is blank, is excluded from OCR
dispatch, and gets a textless slot page. -/
theorem blank_page_classification_witness :
    isBlank [5, 5] = true
    ∧ externalOcrDispatch [⟨1, [5, 5], 2, 3⟩, ⟨2, [1, 2], 2, 3⟩]
        = [⟨2, [1, 2], 2, 3⟩]
    ∧ (⟨1, [5, 5], 2, 3⟩ : PageImage) ∈ blankPagesOf [⟨1, [5, 5], 2, 3⟩]
    ∧ do_create_blank_pdf (2, 3) 300
        = { width := (2 : ℚ) / 300 * 72, height := (3 : ℚ) / 300 * 72
          , textOps := [] } := by
  refine ⟨?_, by decide, by decide, ?_⟩
  · exact ((blank_page_classification [] 300).1 [5, 5]).mpr (by decide)
  · exact (blank_page_classification [⟨1, [5, 5], 2, 3⟩] 300).2.2
      ⟨1, [5, 5], 2, 3⟩ (by decide)

/-! ## Claims about the smart rebuild preset -/

/-- A fold of `max` over naturals is zero exactly when every element is
zero. -/
theorem foldr_max_eq_zero_iff (l : List Nat) :
    l.foldr max 0 = 0 ↔ ∀ x ∈ l, x = 0 := by
  induction l with
  | nil => simp
  | cons a t ih => simp [Nat.max_eq_zero_iff, ih]

/-- The channel-difference maximum vanishes exactly when the two channels
agree on every pixel. -/
theorem channelDiffMax_eq_zero (img : List (Nat × Nat × Nat))
    (f g : (Nat × Nat × Nat) → Nat) :
    channelDiffMax img f g = 0 ↔ ∀ p ∈ img, f p = g p := by
  unfold channelDiffMax
  rw [foldr_max_eq_zero_iff]
  constructor
  · intro h p hp
    have := h _ (List.mem_map.mpr ⟨p, hp, rfl⟩)
    omega
  · intro h x hx
    obtain ⟨p, hp, rfl⟩ := List.mem_map.mp hx
    have := h p hp
    omega

/-- The greyscale check passes exactly when the three channels are
pixel-identical everywhere. -/
theorem do_check_img_greyscale_iff (img : List (Nat × Nat × Nat)) :
    do_check_img_greyscale img = true ↔
      ∀ p ∈ img, pixR p = pixG p ∧ pixR p = pixB p := by
  constructor
  · intro h p hp
    have h1 : channelDiffMax img pixR pixG = 0 := by
      by_contra hc
      simp [do_check_img_greyscale, hc] at h
    have h2 : channelDiffMax img pixR pixB = 0 := by
      by_contra hc
      simp [do_check_img_greyscale, h1, hc] at h
    exact ⟨(channelDiffMax_eq_zero img pixR pixG).mp h1 p hp,
      (channelDiffMax_eq_zero img pixR pixB).mp h2 p hp⟩
  · intro h
    have h1 : channelDiffMax img pixR pixG = 0 :=
      (channelDiffMax_eq_zero img pixR pixG).mpr (fun p hp => (h p hp).1)
    have h2 : channelDiffMax img pixR pixB = 0 :=
      (channelDiffMax_eq_zero img pixR pixB).mpr (fun p hp => (h p hp).2)
    simp [do_check_img_greyscale, h1, h2]

/-- C7: in smart mode a page is monochrome iff its three color channels
are pixel-identical everywhere; all pages monochrome selects the
bitonal-best preset, any non-monochrome page selects the lossy JPEG
preset. -/
theorem smart_rebuild_preset (imgs : List (List (Nat × Nat × Nat))) :
    (∀ img ∈ imgs, (do_check_img_greyscale img = true ↔
        ∀ p ∈ img, pixR p = pixG p ∧ pixR p = pixB p))
    ∧ ((∀ img ∈ imgs, do_check_img_greyscale img = true) →
        selectConvertParams "smart" imgs = preset_best)
    ∧ ((∃ img ∈ imgs, do_check_img_greyscale img = false) →
        selectConvertParams "smart" imgs = preset_jpeg) := by
  refine ⟨fun img _ => do_check_img_greyscale_iff img, ?_, ?_⟩
  · intro h
    have hall : (imgs.map do_check_img_greyscale).all (fun x => x) = true := by
      rw [List.all_eq_true]
      intro b hb
      obtain ⟨img, hi, rfl⟩ := List.mem_map.mp hb
      exact h img hi
    have h1 : smartChoice (imgs.map do_check_img_greyscale) = "best" := by
      unfold smartChoice
      rw [if_pos hall]
    simp [selectConvertParams, h1, preset_best]
  · intro h
    obtain ⟨img, hi, himg⟩ := h
    have hall : (imgs.map do_check_img_greyscale).all (fun x => x) = false := by
      rcases hv : (imgs.map do_check_img_greyscale).all (fun x => x) with _ | _
      · rfl
      · rw [List.all_eq_true] at hv
        have := hv _ (List.mem_map.mpr ⟨img, hi, rfl⟩)
        rw [himg] at this
        exact absurd this Bool.false_ne_true
    have h1 : smartChoice (imgs.map do_check_img_greyscale) = "jpeg" := by
      unfold smartChoice
      rw [if_neg (by rw [hall]; exact Bool.false_ne_true)]
    simp [selectConvertParams, h1, preset_jpeg]

/-- C7 witness: an all-grey page selects `best`; a colored page selects
`jpeg`. -/
theorem smart_rebuild_preset_witness :
    (∀ img ∈ [[((3 : Nat), (3 : Nat), (3 : Nat))]],
      do_check_img_greyscale img = true)
    ∧ selectConvertParams "smart" [[(3, 3, 3)]] = preset_best
    ∧ (∃ img ∈ [[((3 : Nat), (0 : Nat), (0 : Nat))]],
        do_check_img_greyscale img = false)
    ∧ selectConvertParams "smart" [[(3, 0, 0)]] = preset_jpeg := by
  refine ⟨by decide, ?_, by decide, ?_⟩
  · exact (smart_rebuild_preset [[(3, 3, 3)]]).2.1 (by decide)
  · exact (smart_rebuild_preset [[(3, 0, 0)]]).2.2 (by decide)

/-! ## Claim about the rebuild / ignore-text contradiction -/

/-- C9: whenever the rebuild path is selected (encryption, non-PDF input,
deskew, or forced rebuild) and ignore-existing-text is also requested,
`ocr` ends with a fatal error and none of the work stages (rasterization,
OCR, final assembly) is ever executed. -/
theorem rebuild_ignore_text_contradiction (c : RunConfig)
    (h1 : rebuildFromImagesFlag c = true) (h2 : c.ignoreText = true) :
    (ocrRun c).2.isSome = true
    ∧ Stage.convertToImagesStage ∉ (ocrRun c).1
    ∧ Stage.externalOcrStage ∉ (ocrRun c).1
    ∧ Stage.buildOutputStage ∉ (ocrRun c).1 := by
  have hcond : (rebuildFromImagesFlag c && c.ignoreText) = true := by
    rw [h1, h2]
    rfl
  simp only [ocrRun, ocrRunTail, hcond, if_true]
  split_ifs <;> simp_all

/-- C9 witness: a forced-rebuild run with ignore-existing-text on a plain
PDF fails with no work stage executed. -/
theorem rebuild_ignore_text_contradiction_witness :
    rebuildFromImagesFlag
        ⟨false, true, false, false, false, false, false, false, false,
          true, true⟩ = true
    ∧ (⟨false, true, false, false, false, false, false, false, false,
          true, true⟩ : RunConfig).ignoreText = true
    ∧ (ocrRun ⟨false, true, false, false, false, false, false, false,
          false, true, true⟩).2.isSome = true :=
  ⟨rfl, rfl,
    (rebuild_ignore_text_contradiction
      ⟨false, true, false, false, false, false, false, false, false,
        true, true⟩ rfl rfl).1⟩

/-! ## Claim about the 2-page orientation scenario -/

/-- C3 counterexample: in the scenario (page 1 blank, page 2 text,
autorotation on, page 2 detected at 90 degrees) the blank page is
excluded from orientation detection, so only one OSD record exists for
two pages and rotation is skipped for the whole document: the final
rotations are [0, 0], not [0, 90] as the claim states. -/
theorem scenario_autorotate_counterexample :
    scenarioFinalRotations = [0, 0] ∧ scenarioFinalRotations ≠ [0, 90] := by
  constructor
  · decide
  · decide

/-- C3 amended: in the scenario exactly one OSD record is produced for
the two pages, so autorotation is skipped fail-soft: the final output has
page 2 unrotated as well as page 1, and page 1 (blank) is excluded from
OCR dispatch, its slot synthesized as a textless page at its pixel
dimensions in points (100×200 px at 300 dpi = 24×48 pt). -/
theorem scenario_autorotate_amended :
    (autorotateInfoOsd scenarioPages scenarioAngleOf).length = 1
    ∧ scenarioPages.length = 2
    ∧ scenarioFinalRotations = [0, 0]
    ∧ externalOcrDispatch scenarioPages = [scenarioTextPage]
    ∧ do_create_blank_pdf (scenarioBlankPage.width, scenarioBlankPage.height)
        300 = { width := 24, height := 48, textOps := [] } := by
  refine ⟨by decide, by decide, by decide, by decide, ?_⟩
  · show do_create_blank_pdf (100, 200) 300 = _
    unfold do_create_blank_pdf
    norm_num

/-! ## Claims about the cuneiform OCR fallback -/

/-- C8 counterexample: for page language `fra` (not the pipeline's
default language `por+eng`) and an OCR run that never produces hOCR, the
retry substitutes `eng` — not the pipeline's default language — and the
fallback page has the fixed size 408×576 pt (bbox 0 0 1700 2400 px at
300 dpi) rather than the page's own size (e.g. 240 pt for a 1000 px
side). -/
theorem cuneiform_retry_counterexample :
    (do_ocr_cuneiform "fra" (fun _ => false)).attempts = ["fra", "eng"]
    ∧ ["fra", "eng"] ≠ ["fra", "por+eng"]
    ∧ (do_ocr_cuneiform "fra" (fun _ => false)).pageFromFallback = true
    ∧ hocrToPdf (fun _ _ => (50 : ℚ)) 300 [fallbackPageBox] [] true
        = Except.ok { width := 408, height := 576, textOps := [] }
    ∧ (408 : ℚ) ≠ (1000 : ℚ) / 300 * 72 := by
  refine ⟨by decide, by decide, by decide, ?_, by norm_num⟩
  simp only [hocrToPdf, hocrInit, to_pdf, pt_from_pixel, inch,
    fallbackPageBox, List.filterMap_nil]
  norm_num

/-- C8 amended: when the cuneiform run for a page produces no hOCR file,
a single retry substituting English (`eng`) is attempted unless the
page's lowercased language is already `eng`; when the file is still
missing the page falls back to an empty page of the fixed default size
408×576 pt (hOCR bbox 0 0 1700 2400 px at 300 dpi); the call always
produces a page and never fails the document. -/
theorem cuneiform_retry_amended (lang : String) (ok : String → Bool)
    (hfail : ok (lowerStr lang) = false) :
    (lowerStr lang ≠ "eng" →
      (do_ocr_cuneiform lang ok).attempts = [lowerStr lang, "eng"])
    ∧ (lowerStr lang = "eng" →
      (do_ocr_cuneiform lang ok).attempts = [lowerStr lang])
    ∧ ((do_ocr_cuneiform lang ok).hocrFound = false ↔
        (do_ocr_cuneiform lang ok).pageFromFallback = true)
    ∧ (∀ sw : String → ℚ → ℚ,
        hocrToPdf sw 300 [fallbackPageBox] [] true
          = Except.ok { width := 408, height := 576, textOps := [] }) := by
  refine ⟨?_, ?_, ?_, ?_⟩
  · intro h
    simp [do_ocr_cuneiform, hfail, h]
  · intro h
    simp [do_ocr_cuneiform, hfail, h]
  · have hpf : (do_ocr_cuneiform lang ok).pageFromFallback
        = !(do_ocr_cuneiform lang ok).hocrFound := rfl
    rw [hpf]
    generalize (do_ocr_cuneiform lang ok).hocrFound = b
    cases b <;> simp
  · intro sw
    simp only [hocrToPdf, hocrInit, to_pdf, pt_from_pixel, inch,
      fallbackPageBox, List.filterMap_nil]
    norm_num

/-- C8 amended witness: language `fra` with a failing OCR oracle retries
exactly once with `eng`. -/
theorem cuneiform_retry_amended_witness :
    (fun _ : String => false) (lowerStr "fra") = false
    ∧ (do_ocr_cuneiform "fra" (fun _ => false)).attempts
        = [lowerStr "fra", "eng"] :=
  ⟨rfl, (cuneiform_retry_amended "fra" (fun _ => false) rfl).1 (by decide)⟩
